import Mathlib

/-!
Verification of the Stripe payment-intake bridge (`stripe_server.py`).

The server has two endpoints:
* `crear_sesion` — validates a purchase request against the static catalog
  `POINT_PACKAGES` and delegates to the payment provider;
* `stripe_webhook` — verifies the provider signature, filters by tenant
  (`PROJECT_IDENTIFIER` in the event metadata), coerces metadata fields, and
  applies the points-credit / priority-update mutations plus a best-effort
  Telegram notification.

The embedding below is a faithful shallow translation of the Python control
flow.  External collaborators (the Stripe signature check, the database, the
Telegram bot) are modelled by explicit inputs: the outcome of
`stripe.Webhook.construct_event` is a `ConstructResult`, and the
success/failure behaviour of the three external calls is an `Externals`
record.  The side effects performed by the handler are collected as a list of
`Effect`s (each entry is one call attempt, in program order).
-/

/-- Python `int(x)` digits check (ASCII). -/
def isAsciiDigit (c : Char) : Bool := '0' ≤ c && c ≤ '9'

/-- Value of an ASCII digit string. -/
def digitsVal (l : List Char) : Nat :=
  l.foldl (fun a c => a * 10 + (c.toNat - '0'.toNat)) 0

/-- Python `int(s)` on a stripped character list: optional sign then one or
more ASCII digits; anything else raises `ValueError` (`none` here).
(Underscore separators and non-ASCII digit forms are outside the modelled
alphabet.) -/
def parseIntCore : List Char → Option Int
  | [] => none
  | '+' :: rest =>
      if rest ≠ [] ∧ rest.all isAsciiDigit then some (digitsVal rest) else none
  | '-' :: rest =>
      if rest ≠ [] ∧ rest.all isAsciiDigit then some (-(digitsVal rest : Int)) else none
  | l =>
      if l.all isAsciiDigit then some (digitsVal l) else none

/-- Python whitespace test for `str.strip` (ASCII range). -/
def isPySpace (c : Char) : Bool :=
  c = ' ' || c = '\t' || c = '\n' || c = '\r' || c = '\x0b' || c = '\x0c'

/-- Strip leading and trailing whitespace from a character list. -/
def stripSpaces (l : List Char) : List Char :=
  ((l.dropWhile isPySpace).reverse.dropWhile isPySpace).reverse

/-- Python `int(s)` for a string: surrounding whitespace is stripped. -/
def pyIntOfString (s : String) : Option Int := parseIntCore (stripSpaces s.toList)

/-- Python `int(x)` where `x` came from `dict.get` (a string or `None`):
`int(None)` raises `TypeError` (`none`), a non-numeric string raises
`ValueError` (`none`). -/
def parseIntPy : Option String → Option Int
  | none => none
  | some s => pyIntOfString s

/-- One catalog entry of `POINT_PACKAGES`. -/
structure Package where
  label : String
  amount : Int
  points : Int
  priority_boost : Int
deriving DecidableEq, Repr

/-- The static catalog `POINT_PACKAGES` from the source. -/
def POINT_PACKAGES : List (String × Package) :=
  [("p200", ⟨"500 points", 8000, 500, 1⟩),
   ("p500", ⟨"2000 points", 1800, 2000, 1⟩),
   ("p1000", ⟨"5000 points", 40000, 5000, 1⟩)]

/-- Dictionary lookup `POINT_PACKAGES[k]`. -/
def lookupPackage (k : String) : Option Package :=
  (POINT_PACKAGES.find? (fun p => p.1 = k)).map (fun p => p.2)

/-- `PROJECT_IDENTIFIER` constant from the source. -/
def PROJECT_IDENTIFIER : String := "videos2hotbot"

/-- The checkout-session metadata fields the webhook reads
(`session.get("metadata", {})`; each `.get` yields a string or `None`). -/
structure Metadata where
  project : Option String
  telegram_user_id : Option String
  package_id : Option String
  points_awarded : Option String
  priority_boost : Option String
deriving DecidableEq, Repr

/-- The parsed event envelope produced by `stripe.Webhook.construct_event`. -/
structure Event where
  type : String
  metadata : Metadata
deriving DecidableEq, Repr

/-- Outcome of `stripe.Webhook.construct_event(payload, sig, secret)`:
either a verified event, a `SignatureVerificationError` (forged or absent
signature), or a `ValueError` (malformed payload). -/
inductive ConstructResult where
  | ok (e : Event)
  | sigError
  | valueError
deriving DecidableEq, Repr

/-- Behaviour of the external collaborators during one webhook invocation:
whether `database.update_user_points` / `database.update_user_priority`
raise, whether the Telegram bot is configured (`BOT_TOKEN` present), and
whether `bot.send_message` raises. -/
structure Externals where
  pointsFails : Bool
  priorityFails : Bool
  botConfigured : Bool
  sendFails : Bool
deriving DecidableEq, Repr

/-- One external call attempt made by the webhook handler, in program order. -/
inductive Effect where
  | creditPoints (user_id points : Int)
  | updatePriority (user_id boost : Int)
  | notifyAttempt (user_id points boost : Int)
deriving DecidableEq, Repr

/-- Response body variants of the webhook endpoint. -/
inductive Body where
  | detail (s : String)
  | ignored (reason : String)
  | errorMsg (s : String)
  | ok
deriving DecidableEq, Repr

/-- HTTP response of the webhook endpoint. -/
structure Response where
  status : Nat
  body : Body
deriving DecidableEq, Repr

/-- The `try` block of lines 171–195: attempt the points credit; on success
attempt the priority update; on success attempt the notification when the bot
is configured (a `send_message` failure is caught by the inner `try` and
changes nothing).  Any exception from the two database calls is caught by the
outer `except`, so execution stops after the raising call. -/
def runMutation (ext : Externals) (user_id points boost : Int) : List Effect :=
  let credit := [Effect.creditPoints user_id points]
  if ext.pointsFails then credit
  else
    let withPrio := credit ++ [Effect.updatePriority user_id boost]
    if ext.priorityFails then withPrio
    else if ext.botConfigured then
      withPrio ++ [Effect.notifyAttempt user_id points boost]
    else withPrio

/-- Shallow embedding of the `/webhook/stripe` handler (lines 107–203),
returning the HTTP response and the list of external call attempts. -/
def stripe_webhook (cr : ConstructResult) (ext : Externals) :
    Response × List Effect :=
  match cr with
  | .sigError => (⟨400, .detail "Firma inválida"⟩, [])
  | .valueError => (⟨400, .detail "Payload inválido"⟩, [])
  | .ok event =>
    if event.type = "checkout.session.completed" then
      let md := event.metadata
      if md.project = some PROJECT_IDENTIFIER then
        -- line 141 repeats the type test, which is true here
        match parseIntPy md.telegram_user_id with
        | none => (⟨400, .errorMsg "user_id inválido en metadata"⟩, [])
        | some user_id =>
          let points_awarded := (parseIntPy md.points_awarded).getD 0
          let priority_boost := (parseIntPy md.priority_boost).getD 2
          -- line 170: `user_id is not None` is always true here
          if (md.package_id.bind lookupPackage).isSome then
            (⟨200, .ok⟩, runMutation ext user_id points_awarded priority_boost)
          else
            (⟨200, .ok⟩, [])
      else
        (⟨200, .ignored "project_mismatch"⟩, [])
    else
      (⟨200, .ok⟩, [])

/-- A JSON value as it reaches `crear_sesion` through `request.json()`
(restricted to the shapes the claims need; an explicit `null` and an absent
key both surface as Python `None`, modelled as `Option.none` at the field). -/
inductive JVal where
  | jstr (s : String)
  | jint (n : Int)
  | jbool (b : Bool)
deriving DecidableEq, Repr

/-- Python `str(x)` for a `dict.get` result: `str(None) = "None"`. -/
def pyStr : Option JVal → String
  | none => "None"
  | some (.jstr s) => s
  | some (.jint n) => toString n
  | some (.jbool b) => if b then "True" else "False"

/-- Python `isinstance(x, int)`: `bool` is a subclass of `int`. -/
def pyIsInt : JVal → Bool
  | .jint _ => true
  | .jbool _ => true
  | .jstr _ => false

/-- The request body of `/crear-sesion`; each field is `dict.get` of the key
(`none` = absent or JSON null). -/
structure SessionRequest where
  telegram_user_id : Option JVal
  paquete_id : Option JVal
  priority_boost : Option JVal
deriving DecidableEq, Repr

/-- `x in POINT_PACKAGES` for a `dict.get` result: only a string key can be a
member. -/
def inCatalog : Option JVal → Bool
  | some (.jstr s) => (lookupPackage s).isSome
  | _ => false

/-- The arguments of the `stripe.checkout.Session.create` call, as far as the
claims consume them (metadata and line item). -/
structure CreateSessionCall where
  user_id : String
  package_id : String
  points_awarded : Int
  priority_boost : Option JVal
  amount : Int
  label : String
deriving DecidableEq, Repr

/-- Outcome of the `/crear-sesion` validation phase: a 400 response with no
provider call, or the provider call that is issued. -/
inductive CrearSesionOutcome where
  | badRequest (msg : String)
  | callProvider (c : CreateSessionCall)
deriving DecidableEq, Repr

/-- Shallow embedding of `/crear-sesion` (lines 52–105) up to the provider
call: `user_id = str(data.get("telegram_user_id"))`, then the two validation
checks, then the `stripe.checkout.Session.create` call built from the catalog
entry. -/
def crear_sesion (req : SessionRequest) : CrearSesionOutcome :=
  let user_id := pyStr req.telegram_user_id
  if user_id = "" ∨ inCatalog req.paquete_id = false then
    .badRequest "Datos inválidos: user_id o package_id incorrecto."
  else
    match req.priority_boost with
    | some v =>
      if pyIsInt v then
        let key := pyStr req.paquete_id
        let paquete := (lookupPackage key).getD ⟨"", 0, 0, 0⟩
        .callProvider ⟨user_id, key, paquete.points, some v, paquete.amount, paquete.label⟩
      else
        .badRequest "Datos inválidos: priority_boost debe ser un entero."
    | none =>
      let key := pyStr req.paquete_id
      let paquete := (lookupPackage key).getD ⟨"", 0, 0, 0⟩
      .callProvider ⟨user_id, key, paquete.points, none, paquete.amount, paquete.label⟩

/-! ### Helper lemmas about the mutation block -/

theorem runMutation_head (ext : Externals) (u p b : Int) :
    (runMutation ext u p b).head? = some (Effect.creditPoints u p) := by
  cases hx : ext.pointsFails <;> cases hy : ext.priorityFails <;>
    cases hz : ext.botConfigured <;> simp [runMutation, hx, hy, hz]

theorem runMutation_credit_unique (ext : Externals) (u p b q : Int)
    (h : Effect.creditPoints u q ∈ runMutation ext u p b) : q = p := by
  cases hx : ext.pointsFails <;> cases hy : ext.priorityFails <;>
    cases hz : ext.botConfigured <;>
    simp [runMutation, hx, hy, hz] at h <;> exact h

theorem runMutation_priority_mem (ext : Externals) (u p b : Int)
    (h : ext.pointsFails = false) :
    Effect.updatePriority u b ∈ runMutation ext u p b := by
  cases hy : ext.priorityFails <;> cases hz : ext.botConfigured <;>
    simp [runMutation, h, hy, hz]

/-! ### Claim theorems -/

/-- C1: a well-signed `checkout.session.completed` event whose tenant tag
matches, with `points_awarded="500"`, `priority_boost="1"`, a numeric
account id and a catalog package id, makes exactly one 500-point credit
call, exactly one priority update to tier 1 and exactly one notification
attempt, then responds HTTP 200. -/
theorem C1_single_credit_priority_notification
    (e : Event) (ext : Externals) (uid : Int)
    (ht : e.type = "checkout.session.completed")
    (hp : e.metadata.project = some PROJECT_IDENTIFIER)
    (hu : parseIntPy e.metadata.telegram_user_id = some uid)
    (hpa : e.metadata.points_awarded = some "500")
    (hpb : e.metadata.priority_boost = some "1")
    (hpkg : (e.metadata.package_id.bind lookupPackage).isSome = true)
    (h1 : ext.pointsFails = false)
    (h2 : ext.priorityFails = false)
    (h3 : ext.botConfigured = true) :
    stripe_webhook (.ok e) ext =
      (⟨200, .ok⟩,
       [Effect.creditPoints uid 500, Effect.updatePriority uid 1,
        Effect.notifyAttempt uid 500 1]) := by
  have ha : parseIntPy e.metadata.points_awarded = some 500 := by
    rw [hpa]; decide
  have hb : parseIntPy e.metadata.priority_boost = some 1 := by
    rw [hpb]; decide
  simp [stripe_webhook, runMutation, ht, hp, hu, ha, hb, hpkg, h1, h2, h3]

theorem C1_single_credit_priority_notification_witness :
    stripe_webhook
      (.ok ⟨"checkout.session.completed",
        ⟨some "videos2hotbot", some "42", some "p200", some "500", some "1"⟩⟩)
      ⟨false, false, true, false⟩ =
      (⟨200, .ok⟩,
       [Effect.creditPoints 42 500, Effect.updatePriority 42 1,
        Effect.notifyAttempt 42 500 1]) :=
  C1_single_credit_priority_notification _ _ 42 rfl rfl (by decide) rfl rfl
    (by decide) rfl rfl rfl

/-- C2: a webhook request whose signature verification fails (forged or
absent signature) is answered with HTTP 400 and performs no store mutation
and no notification. -/
theorem C2_bad_signature_rejected (ext : Externals) :
    stripe_webhook .sigError ext = (⟨400, .detail "Firma inválida"⟩, []) := rfl

/-- C3: a well-signed `checkout.session.completed` event whose metadata
tenant tag is absent or differs from `PROJECT_IDENTIFIER` is answered with
HTTP 200 and a distinguishing payload, with no store mutation and no
notification. -/
theorem C3_tenant_mismatch_ignored (e : Event) (ext : Externals)
    (ht : e.type = "checkout.session.completed")
    (hp : e.metadata.project ≠ some PROJECT_IDENTIFIER) :
    stripe_webhook (.ok e) ext = (⟨200, .ignored "project_mismatch"⟩, []) := by
  simp [stripe_webhook, ht, hp]

theorem C3_tenant_mismatch_ignored_witness :
    stripe_webhook
      (.ok ⟨"checkout.session.completed",
        ⟨none, some "42", some "p200", some "500", some "1"⟩⟩)
      ⟨false, false, true, false⟩ =
      (⟨200, .ignored "project_mismatch"⟩, []) :=
  C3_tenant_mismatch_ignored _ _ rfl (by decide)

/-- C4 counterexample: a well-signed, tenant-matching
`checkout.session.completed` event whose metadata lacks a numeric
`telegram_user_id` is answered with HTTP 400, not 200, refuting the claim
that every request passing signature verification and envelope parsing is
answered 200. -/
theorem C4_counterexample :
    (stripe_webhook
      (.ok ⟨"checkout.session.completed",
        ⟨some "videos2hotbot", none, some "p200", some "500", some "1"⟩⟩)
      ⟨false, false, true, false⟩).1.status ≠ 200 := by decide

/-- C4 (amended): a request that passes signature verification and envelope
parsing is answered HTTP 200, except when the event is a tenant-matching
`checkout.session.completed` whose `telegram_user_id` metadata is missing or
non-numeric, in which case the response is HTTP 400; failures in the
mutation or notification steps never change the status. -/
theorem C4_amended_status (e : Event) (ext : Externals) :
    (stripe_webhook (.ok e) ext).1.status =
      if e.type = "checkout.session.completed" ∧
         e.metadata.project = some PROJECT_IDENTIFIER ∧
         parseIntPy e.metadata.telegram_user_id = none
      then 400 else 200 := by
  by_cases ht : e.type = "checkout.session.completed"
  · by_cases hp : e.metadata.project = some PROJECT_IDENTIFIER
    · cases hu : parseIntPy e.metadata.telegram_user_id with
      | none => simp [stripe_webhook, ht, hp, hu]
      | some uid =>
        by_cases hpkg : (e.metadata.package_id.bind lookupPackage).isSome = true
        · simp [stripe_webhook, ht, hp, hu, hpkg]
        · simp [stripe_webhook, ht, hp, hu, hpkg]
    · simp [stripe_webhook, ht, hp]
  · simp [stripe_webhook, ht]

theorem runMutation_credit_mem (ext : Externals) (u p b : Int) :
    Effect.creditPoints u p ∈ runMutation ext u p b := by
  cases hx : ext.pointsFails <;> cases hy : ext.priorityFails <;>
    cases hz : ext.botConfigured <;> simp [runMutation, hx, hy, hz]

theorem webhook_trace_eq (e : Event) (ext : Externals) (uid : Int)
    (ht : e.type = "checkout.session.completed")
    (hp : e.metadata.project = some PROJECT_IDENTIFIER)
    (hu : parseIntPy e.metadata.telegram_user_id = some uid)
    (hpkg : (e.metadata.package_id.bind lookupPackage).isSome = true) :
    (stripe_webhook (.ok e) ext).2 =
      runMutation ext uid ((parseIntPy e.metadata.points_awarded).getD 0)
        ((parseIntPy e.metadata.priority_boost).getD 2) := by
  simp [stripe_webhook, ht, hp, hu, hpkg]

/-- C5: for a well-signed, tenant-matching event with valid account id and
catalog package id, a missing/non-numeric `priority_boost` falls back to
tier 2 and the priority update still happens, and a missing/non-numeric
`points_awarded` is coerced to 0 while the priority update still occurs. -/
theorem C5_coercion_fallbacks (e : Event) (ext : Externals) (uid : Int)
    (ht : e.type = "checkout.session.completed")
    (hp : e.metadata.project = some PROJECT_IDENTIFIER)
    (hu : parseIntPy e.metadata.telegram_user_id = some uid)
    (hpkg : (e.metadata.package_id.bind lookupPackage).isSome = true)
    (h1 : ext.pointsFails = false) :
    (parseIntPy e.metadata.priority_boost = none →
      Effect.updatePriority uid 2 ∈ (stripe_webhook (.ok e) ext).2) ∧
    (parseIntPy e.metadata.points_awarded = none →
      Effect.creditPoints uid 0 ∈ (stripe_webhook (.ok e) ext).2 ∧
      Effect.updatePriority uid ((parseIntPy e.metadata.priority_boost).getD 2) ∈
        (stripe_webhook (.ok e) ext).2) := by
  have htr := webhook_trace_eq e ext uid ht hp hu hpkg
  constructor
  · intro hb
    rw [htr, hb]
    exact runMutation_priority_mem ext uid _ 2 h1
  · intro ha
    rw [htr, ha]
    exact ⟨runMutation_credit_mem ext uid 0 _,
           runMutation_priority_mem ext uid 0 _ h1⟩

theorem C5_coercion_fallbacks_witness :
    Effect.updatePriority 42 2 ∈
      (stripe_webhook
        (.ok ⟨"checkout.session.completed",
          ⟨some "videos2hotbot", some "42", some "p200", none, none⟩⟩)
        ⟨false, false, true, false⟩).2 ∧
    Effect.creditPoints 42 0 ∈
      (stripe_webhook
        (.ok ⟨"checkout.session.completed",
          ⟨some "videos2hotbot", some "42", some "p200", none, none⟩⟩)
        ⟨false, false, true, false⟩).2 :=
  let h := C5_coercion_fallbacks _ _ 42 rfl rfl (by decide) (by decide) rfl
  ⟨h.1 rfl, (h.2 rfl).1⟩

/-- C6: a well-signed event of any type other than
`checkout.session.completed` is answered HTTP 200 with no store mutation
and no notification. -/
theorem C6_other_event_types_inert (e : Event) (ext : Externals)
    (ht : ¬ e.type = "checkout.session.completed") :
    stripe_webhook (.ok e) ext = (⟨200, .ok⟩, []) := by
  simp [stripe_webhook, ht]

theorem C6_other_event_types_inert_witness :
    stripe_webhook
      (.ok ⟨"payment_intent.succeeded",
        ⟨some "videos2hotbot", some "42", some "p200", some "500", some "1"⟩⟩)
      ⟨false, false, true, false⟩ = (⟨200, .ok⟩, []) :=
  C6_other_event_types_inert _ _ (by decide)

/-- C7: evaluation of `crear_sesion` at a request whose account id is
absent.  `str(data.get("telegram_user_id"))` turns the absent value into
the non-empty string `"None"`, so the `if not user_id` validation passes
and the provider IS called (with user id `"None"`), instead of the 400
response without a provider call that the specification requires. -/
theorem C7_absent_account_id_calls_provider :
    crear_sesion ⟨none, some (.jstr "p200"), none⟩ =
      .callProvider ⟨"None", "p200", 500, none, 8000, "500 points"⟩ := by
  decide

/-- C8: when the store mutations succeed and the messaging channel raises
during the notification step, the failure is caught: the response is still
HTTP 200 and the credit and priority-update calls remain in the trace
(the notification attempt was made). -/
theorem C8_notification_failure_isolated (e : Event) (ext : Externals) (uid : Int)
    (ht : e.type = "checkout.session.completed")
    (hp : e.metadata.project = some PROJECT_IDENTIFIER)
    (hu : parseIntPy e.metadata.telegram_user_id = some uid)
    (hpkg : (e.metadata.package_id.bind lookupPackage).isSome = true)
    (h1 : ext.pointsFails = false)
    (h2 : ext.priorityFails = false)
    (h3 : ext.botConfigured = true)
    (_h4 : ext.sendFails = true) :
    stripe_webhook (.ok e) ext =
      (⟨200, .ok⟩,
       [Effect.creditPoints uid ((parseIntPy e.metadata.points_awarded).getD 0),
        Effect.updatePriority uid ((parseIntPy e.metadata.priority_boost).getD 2),
        Effect.notifyAttempt uid ((parseIntPy e.metadata.points_awarded).getD 0)
          ((parseIntPy e.metadata.priority_boost).getD 2)]) := by
  simp [stripe_webhook, runMutation, ht, hp, hu, hpkg, h1, h2, h3]

theorem C8_notification_failure_isolated_witness :
    stripe_webhook
      (.ok ⟨"checkout.session.completed",
        ⟨some "videos2hotbot", some "42", some "p200", some "500", some "1"⟩⟩)
      ⟨false, false, true, true⟩ =
      (⟨200, .ok⟩,
       [Effect.creditPoints 42 500, Effect.updatePriority 42 1,
        Effect.notifyAttempt 42 500 1]) :=
  (C8_notification_failure_isolated _ _ 42 rfl rfl (by decide) (by decide)
    rfl rfl rfl rfl).trans (by decide)

/-- C9: the amount credited is the integer parsed from the metadata field
`points_awarded` (0 on parse failure); the catalog is consulted only for
membership of the package id, so the credited amount is exactly the
transmitted one even when it disagrees with the catalog entry. -/
theorem C9_credit_amount_from_metadata (e : Event) (ext : Externals) (uid : Int)
    (ht : e.type = "checkout.session.completed")
    (hp : e.metadata.project = some PROJECT_IDENTIFIER)
    (hu : parseIntPy e.metadata.telegram_user_id = some uid)
    (hpkg : (e.metadata.package_id.bind lookupPackage).isSome = true) :
    (stripe_webhook (.ok e) ext).2.head? =
      some (Effect.creditPoints uid ((parseIntPy e.metadata.points_awarded).getD 0)) ∧
    ∀ q : Int, Effect.creditPoints uid q ∈ (stripe_webhook (.ok e) ext).2 →
      q = (parseIntPy e.metadata.points_awarded).getD 0 := by
  have htr := webhook_trace_eq e ext uid ht hp hu hpkg
  constructor
  · rw [htr]; exact runMutation_head ext uid _ _
  · intro q hq
    rw [htr] at hq
    exact runMutation_credit_unique ext uid _ _ q hq

theorem C9_credit_amount_from_metadata_witness :
    (stripe_webhook
      (.ok ⟨"checkout.session.completed",
        ⟨some "videos2hotbot", some "42", some "p200", some "7", some "1"⟩⟩)
      ⟨false, false, true, false⟩).2.head? =
      some (Effect.creditPoints 42 7) ∧
    (lookupPackage "p200").map Package.points = some 500 :=
  ⟨((C9_credit_amount_from_metadata _ _ 42 rfl rfl (by decide) (by decide)).1).trans
     (by decide),
   by decide⟩

/-- C10: when the points credit succeeds and the priority update raises,
the exception is caught: the credit call stays applied, no notification is
attempted, and the response is the ordinary HTTP 200 success payload. -/
theorem C10_priority_exception_caught (e : Event) (ext : Externals) (uid : Int)
    (ht : e.type = "checkout.session.completed")
    (hp : e.metadata.project = some PROJECT_IDENTIFIER)
    (hu : parseIntPy e.metadata.telegram_user_id = some uid)
    (hpkg : (e.metadata.package_id.bind lookupPackage).isSome = true)
    (h1 : ext.pointsFails = false)
    (h2 : ext.priorityFails = true) :
    stripe_webhook (.ok e) ext =
      (⟨200, .ok⟩,
       [Effect.creditPoints uid ((parseIntPy e.metadata.points_awarded).getD 0),
        Effect.updatePriority uid ((parseIntPy e.metadata.priority_boost).getD 2)]) := by
  simp [stripe_webhook, runMutation, ht, hp, hu, hpkg, h1, h2]

theorem C10_priority_exception_caught_witness :
    stripe_webhook
      (.ok ⟨"checkout.session.completed",
        ⟨some "videos2hotbot", some "42", some "p200", some "500", some "1"⟩⟩)
      ⟨false, true, true, false⟩ =
      (⟨200, .ok⟩,
       [Effect.creditPoints 42 500, Effect.updatePriority 42 1]) :=
  (C10_priority_exception_caught _ _ 42 rfl rfl (by decide) (by decide)
    rfl rfl).trans (by decide)
